import Mathlib

/-!
Verification of the NRGKick web interface (client `app.js`, the bundled
fixed-address server, and the path-addressed proxy server).

JavaScript values relevant to the claims are embedded shallowly:
numbers as `ℚ` (exact arithmetic; IEEE rounding is out of scope), strings as
`String`, possibly-undefined values as `Option`, JSON objects as structures
with `Option` fields (an absent object, defaulted by `x || {}` in the source,
is `Option` on the section itself).
-/

/-- JS truthiness for a possibly-undefined string: `undefined` and `""` are
falsy. -/
def jsTruthyStr : Option String → Bool
  | none => false
  | some s => s ≠ ""

/-- JS `a || b` where `a` is a possibly-undefined string and `b` a string:
returns `a` when truthy, else `b`. -/
def jsOrStr (a : Option String) (b : String) : String :=
  match a with
  | none => b
  | some s => if s = "" then b else s

/-- JS `a || b` where `a` is a possibly-undefined number and `b` a number:
returns `a` when truthy (defined and nonzero), else `b`. -/
def jsOrQ (a : Option ℚ) (b : ℚ) : ℚ :=
  match a with
  | none => b
  | some x => if x = 0 then b else x

/-- JS `v >= t` where `v` may be `undefined`: comparisons with `undefined`
(NaN) are false. -/
def jsGE (v : Option ℚ) (t : ℚ) : Bool :=
  match v with
  | none => false
  | some x => t ≤ x

/-!
## Poll scheduler (`startPeriodicUpdates` / `stopPeriodicUpdates`, app.js)

The browser's timer table is modelled explicitly: `setInterval` allocates a
fresh timer id and activates it, `clearInterval` deactivates the given id.
The controller field `this.updateInterval` holds the id of the interval it
created, or `none`.
-/

/-- Scheduler-relevant state: the set of active interval timers (browser
side) and the controller's `updateInterval` field. -/
structure SchedulerState where
  nextId : Nat
  active : List Nat
  updateInterval : Option Nat
  deriving Repr, DecidableEq

/-- Initial state: no timers, `this.updateInterval = null`. -/
def initSched : SchedulerState := ⟨0, [], none⟩

/-- `stopPeriodicUpdates()`: if `this.updateInterval` is set, clear that
interval and null the field; otherwise do nothing. -/
def stopPeriodicUpdates (s : SchedulerState) : SchedulerState :=
  match s.updateInterval with
  | some id => { s with active := s.active.erase id, updateInterval := none }
  | none => s

/-- `startPeriodicUpdates()`: first calls `stopPeriodicUpdates()`, then
`setInterval` allocates a fresh timer whose handle is stored in
`this.updateInterval`. -/
def startPeriodicUpdates (s : SchedulerState) : SchedulerState :=
  let s' := stopPeriodicUpdates s
  { nextId := s'.nextId + 1
    active := s'.nextId :: s'.active
    updateInterval := some s'.nextId }

/-- Events driving the scheduler: the two lifecycle calls, and a timer tick
whose `fetchChargerStatus()` either succeeds or fails. -/
inductive SchedEvent where
  | start
  | stop
  | tick (success : Bool)
  deriving Repr, DecidableEq

/-- One scheduler step.  A tick runs the interval handler, which catches a
failed fetch (`.catch(console.error)`) and never touches the timer, so the
state is unchanged either way. -/
def schedStep (s : SchedulerState) : SchedEvent → SchedulerState
  | .start => startPeriodicUpdates s
  | .stop => stopPeriodicUpdates s
  | .tick _ => s

/-- Run a sequence of scheduler events from the initial state. -/
def schedRun (es : List SchedEvent) : SchedulerState :=
  es.foldl schedStep initSched

/-- The stronger inductive invariant: the active timers are exactly the one
named by `updateInterval` (if any), and its id is below `nextId`. -/
def schedInv (s : SchedulerState) : Prop :=
  (∀ i, s.updateInterval = some i → (s.active = [i] ∧ i < s.nextId)) ∧
  (s.updateInterval = none → s.active = [])

theorem schedInv_init : schedInv initSched := by
  constructor
  · intro i h; simp [initSched] at h
  · intro _; rfl

theorem schedInv_step (s : SchedulerState) (e : SchedEvent)
    (h : schedInv s) : schedInv (schedStep s e) := by
  obtain ⟨hsome, hnone⟩ := h
  cases e with
  | start =>
    cases hs : s.updateInterval with
    | none =>
      refine ⟨?_, ?_⟩
      · intro i hi
        simp [schedStep, startPeriodicUpdates, stopPeriodicUpdates, hs,
          hnone hs] at hi ⊢
        omega
      · intro hcon
        simp [schedStep, startPeriodicUpdates, stopPeriodicUpdates, hs] at hcon
    | some j =>
      obtain ⟨hact, _⟩ := hsome j hs
      refine ⟨?_, ?_⟩
      · intro i hi
        simp [schedStep, startPeriodicUpdates, stopPeriodicUpdates, hs, hact,
          List.erase_cons] at hi ⊢
        omega
      · intro hcon
        simp [schedStep, startPeriodicUpdates, stopPeriodicUpdates, hs] at hcon
  | stop =>
    cases hs : s.updateInterval with
    | none =>
      refine ⟨?_, ?_⟩
      · intro i hi
        simp [schedStep, stopPeriodicUpdates, hs] at hi
      · intro _
        simp [schedStep, stopPeriodicUpdates, hs, hnone hs]
    | some j =>
      obtain ⟨hact, _⟩ := hsome j hs
      refine ⟨?_, ?_⟩
      · intro i hi
        simp [schedStep, stopPeriodicUpdates, hs] at hi
      · intro _
        simp [schedStep, stopPeriodicUpdates, hs, hact, List.erase_cons]
  | tick b =>
    exact ⟨hsome, hnone⟩

theorem schedInv_run (es : List SchedEvent) : schedInv (schedRun es) := by
  suffices h : ∀ (l : List SchedEvent) (s : SchedulerState), schedInv s →
      schedInv (l.foldl schedStep s) by
    exact h es initSched schedInv_init
  intro l
  induction l with
  | nil => intro s hs; exact hs
  | cons e t ih =>
    intro s hs
    exact ih (schedStep s e) (schedInv_step s e hs)

theorem schedInv_active_len {s : SchedulerState} (h : schedInv s) :
    s.active.length ≤ 1 := by
  cases hs : s.updateInterval with
  | none => simp [h.2 hs]
  | some i => simp [(h.1 i hs).1]

theorem startPeriodicUpdates_active {s : SchedulerState} (h : schedInv s) :
    (startPeriodicUpdates s).active.length = 1 := by
  have h1 := schedInv_step s SchedEvent.start h
  have hu : (schedStep s SchedEvent.start).updateInterval =
      some (stopPeriodicUpdates s).nextId := by
    simp [schedStep, startPeriodicUpdates]
  have := (h1.1 _ hu).1
  simp [schedStep] at this
  simp [this]

/-- C1: for every sequence of calls to the poll scheduler, at most one poll
timer is active; `startPeriodicUpdates` first clears any existing timer, so
calling start twice leaves exactly one active timer; a tick — failed or not —
leaves the scheduler untouched; `stopPeriodicUpdates` clears all timers, and
it is the only event that can deactivate a running scheduler. -/
theorem poll_scheduler_at_most_one_timer :
    (∀ es : List SchedEvent, (schedRun es).active.length ≤ 1) ∧
    (∀ es : List SchedEvent,
      (startPeriodicUpdates (startPeriodicUpdates (schedRun es))).active.length
        = 1) ∧
    (∀ (s : SchedulerState) (b : Bool), schedStep s (SchedEvent.tick b) = s) ∧
    (∀ es : List SchedEvent,
      (schedStep (schedRun es) SchedEvent.stop).active = []) ∧
    (∀ (es : List SchedEvent) (e : SchedEvent), e ≠ SchedEvent.stop →
      (schedRun es).active ≠ [] → (schedStep (schedRun es) e).active ≠ []) := by
  refine ⟨?_, ?_, ?_, ?_, ?_⟩
  · intro es
    exact schedInv_active_len (schedInv_run es)
  · intro es
    have h1 : schedInv (startPeriodicUpdates (schedRun es)) :=
      schedInv_step (schedRun es) SchedEvent.start (schedInv_run es)
    exact startPeriodicUpdates_active h1
  · intro s b
    rfl
  · intro es
    have h := schedInv_run es
    cases hs : (schedRun es).updateInterval with
    | none =>
      simp [schedStep, stopPeriodicUpdates, hs, h.2 hs]
    | some i =>
      simp [schedStep, stopPeriodicUpdates, hs, (h.1 i hs).1, List.erase_cons]
  · intro es e hne hact
    have h := schedInv_run es
    cases e with
    | start =>
      have hlen : (schedStep (schedRun es) SchedEvent.start).active.length = 1 := by
        simpa [schedStep] using
          startPeriodicUpdates_active (s := schedRun es) h
      intro hcon
      rw [hcon] at hlen
      simp at hlen
    | stop => exact absurd rfl hne
    | tick b => exact hact

theorem poll_scheduler_at_most_one_timer_witness :
    (schedRun [SchedEvent.start, SchedEvent.start]).active.length ≤ 1 ∧
    (startPeriodicUpdates (startPeriodicUpdates (schedRun []))).active.length
      = 1 ∧
    schedStep (schedRun [SchedEvent.start]) (SchedEvent.tick false)
      = schedRun [SchedEvent.start] ∧
    (schedStep (schedRun [SchedEvent.start]) SchedEvent.stop).active = [] ∧
    (schedStep (schedRun [SchedEvent.start]) (SchedEvent.tick false)).active
      ≠ [] :=
  ⟨poll_scheduler_at_most_one_timer.1 _,
   poll_scheduler_at_most_one_timer.2.1 _,
   poll_scheduler_at_most_one_timer.2.2.1 _ _,
   poll_scheduler_at_most_one_timer.2.2.2.1 _,
   poll_scheduler_at_most_one_timer.2.2.2.2 _ _ (by decide) (by decide)⟩

/-!
## Number formatting (`Number.prototype.toFixed`)

ECMA-262 `toFixed(f)` on a non-negative decimal value picks the integer `n`
closest to `x * 10^f`, ties towards the larger `n`; a negative value is
formatted as the sign plus the formatting of its magnitude.
-/

/-- The `d` low decimal digits of `m`, most significant first, zero-padded to
exactly `d` characters. -/
def padDigits : Nat → Nat → List Char
  | 0, _ => []
  | d + 1, m => padDigits d (m / 10) ++ [Nat.digitChar (m % 10)]

/-- `toFixed d x` for `x ≥ 0`: round half away from zero at `d` decimals. -/
def toFixedAbs (d : Nat) (x : ℚ) : String :=
  let n : Nat := (⌊x * (10 : ℚ) ^ d + 1 / 2⌋).toNat
  if d = 0 then Nat.repr n
  else Nat.repr (n / 10 ^ d) ++ "." ++ String.mk (padDigits d (n % 10 ^ d))

/-- JS `x.toFixed(d)`. -/
def toFixed (d : Nat) (x : ℚ) : String :=
  if x < 0 then "-" ++ toFixedAbs d (-x) else toFixedAbs d x

/-- Decimal rendering of a JS number used by template literals such as
`` `${currentLimit} A` ``; exact only for integral values, which is all the
device reports for the fields rendered this way. -/
def jsNumStr (q : ℚ) : String :=
  if q.den = 1 then
    if q.num < 0 then "-" ++ Nat.repr q.num.natAbs else Nat.repr q.num.natAbs
  else toString q

/-!
## JSON documents consumed by `updateStatusDisplay` (app.js)

Each nested section is optional (`data.values || {}` etc.); each leaf is an
optional number.
-/

structure PhaseDoc where
  voltage : Option ℚ
  current : Option ℚ
  deriving Repr, DecidableEq

structure PowerflowDoc where
  charging_voltage : Option ℚ
  charging_current : Option ℚ
  total_active_power : Option ℚ
  l1 : Option PhaseDoc
  l2 : Option PhaseDoc
  l3 : Option PhaseDoc
  deriving Repr, DecidableEq

structure EnergyDoc where
  total_charged_energy : Option ℚ
  charged_energy : Option ℚ
  deriving Repr, DecidableEq

structure GeneralDoc where
  status : Option ℚ
  deriving Repr, DecidableEq

structure TemperaturesDoc where
  housing : Option ℚ
  deriving Repr, DecidableEq

structure ValuesDoc where
  general : Option GeneralDoc
  energy : Option EnergyDoc
  powerflow : Option PowerflowDoc
  temperatures : Option TemperaturesDoc
  deriving Repr, DecidableEq

structure ControlDoc where
  current_set : Option ℚ
  phase_count : Option ℚ
  deriving Repr, DecidableEq

/-- The merged `{ control, values }` object built by `fetchChargerStatus`. -/
structure StatusData where
  control : Option ControlDoc
  values : Option ValuesDoc
  deriving Repr, DecidableEq

def emptyPhase : PhaseDoc := ⟨none, none⟩

def emptyPowerflow : PowerflowDoc := ⟨none, none, none, none, none, none⟩

/-- The text/class content of the DOM elements written by the client. -/
structure Display where
  chargingStateText : String
  chargingStateClass : String
  powerValue : String
  energySession : String
  totalEnergy : String
  currentValue : String
  voltageValue : String
  temperatureValue : String
  vehicleConnectedText : String
  vehicleConnectedClass : String
  currentLimit : String
  sliderValue : ℚ
  sliderText : String
  phase1Active : Bool
  phase3Active : Bool
  deriving Repr, DecidableEq

/-- The `STATUS_MAP` constant: lookup of a status code in the object literal
(an absent key reads as `undefined`). -/
def STATUS_MAP (code : ℚ) : Option String :=
  if code = 0 then some "Unknown"
  else if code = 1 then some "Standby"
  else if code = 2 then some "Connected"
  else if code = 3 then some "Charging"
  else if code = 6 then some "Error"
  else if code = 7 then some "Wakeup"
  else none

/-- The `switch (statusCode)` of `updateChargingState` choosing the style
class. -/
def stateClassOf (code : ℚ) : String :=
  if code = 3 then "charging-active"
  else if code = 2 ∨ code = 7 then "charging-ready"
  else if code = 1 then "charging-stopped"
  else if code = 6 then "charging-error"
  else ""

/-- `updateChargingState(statusCode)`: writes the charging-state element's
text and `className`.  An `undefined`/`null` code resets both. -/
def updateChargingState (statusCode : Option ℚ) (dsp : Display) : Display :=
  match statusCode with
  | none =>
    { dsp with chargingStateText := "--", chargingStateClass := "status-value" }
  | some c =>
    { dsp with
      chargingStateText := jsOrStr (STATUS_MAP c) "Unknown"
      chargingStateClass := "status-value " ++ stateClassOf c }

/-!
`updateStatusDisplay(data)` (app.js) is a sequence of independent statement
blocks, each guarded exactly as in the source (`typeof x === 'number'`,
strict `=== 3`, `> 0`, `>= 2`, truthiness); a failed guard leaves the
previous display text in place.  Each block is embedded as one update
function, composed in source order below.  The style-only
`updateSliderBackground()` call is omitted: it writes no text.
-/

/-- Power block: `powerflow.total_active_power`, W → kW at two decimals. -/
def updPower (powerflow : PowerflowDoc) (d : Display) : Display :=
  match powerflow.total_active_power with
  | some power => { d with powerValue := toFixed 2 (power / 1000) ++ " kW" }
  | none => d

/-- Session-energy block: `energy.charged_energy`, Wh → kWh. -/
def updSessionEnergy (energy : EnergyDoc) (d : Display) : Display :=
  match energy.charged_energy with
  | some e => { d with energySession := toFixed 2 (e / 1000) ++ " kWh" }
  | none => d

/-- Total-energy block: `energy.total_charged_energy`, Wh → kWh. -/
def updTotalEnergy (energy : EnergyDoc) (d : Display) : Display :=
  match energy.total_charged_energy with
  | some e => { d with totalEnergy := toFixed 2 (e / 1000) ++ " kWh" }
  | none => d

/-- Current block: `powerflow.charging_current`, else the per-phase sum,
else `"0.0 A"` when charging. -/
def updCurrent (powerflow : PowerflowDoc) (statusCode : Option ℚ)
    (d : Display) : Display :=
  match powerflow.charging_current with
  | some c => { d with currentValue := toFixed 1 c ++ " A" }
  | none =>
    let l1 := powerflow.l1.getD emptyPhase
    let l2 := powerflow.l2.getD emptyPhase
    let l3 := powerflow.l3.getD emptyPhase
    let totalCurrent :=
      jsOrQ l1.current 0 + jsOrQ l2.current 0 + jsOrQ l3.current 0
    if 0 < totalCurrent then
      { d with currentValue := toFixed 1 totalCurrent ++ " A" }
    else if statusCode = some 3 then { d with currentValue := "0.0 A" }
    else d

/-- Voltage fallback: `Math.max` over the phase voltages. -/
def updVoltageFallback (powerflow : PowerflowDoc) (d : Display) : Display :=
  let l1 := powerflow.l1.getD emptyPhase
  let l2 := powerflow.l2.getD emptyPhase
  let l3 := powerflow.l3.getD emptyPhase
  let voltage := max (max (jsOrQ l1.voltage 0) (jsOrQ l2.voltage 0))
    (jsOrQ l3.voltage 0)
  if 0 < voltage then { d with voltageValue := toFixed 0 voltage ++ " V" }
  else d

/-- Voltage block: `powerflow.charging_voltage` when positive, else the
per-phase fallback. -/
def updVoltage (powerflow : PowerflowDoc) (d : Display) : Display :=
  match powerflow.charging_voltage with
  | some v =>
    if 0 < v then { d with voltageValue := toFixed 0 v ++ " V" }
    else updVoltageFallback powerflow d
  | none => updVoltageFallback powerflow d

/-- Temperature block: `temperatures.housing` when defined. -/
def updTemperature (temperatures : TemperaturesDoc) (d : Display) : Display :=
  match temperatures.housing with
  | some t => { d with temperatureValue := toFixed 1 t ++ " °C" }
  | none => d

/-- Vehicle-connected block: `statusCode >= 2` (false on `undefined`). -/
def updVehicleConnected (statusCode : Option ℚ) (d : Display) : Display :=
  let vehicleConnected := jsGE statusCode 2
  { d with
    vehicleConnectedText := if vehicleConnected then "Yes" else "No"
    vehicleConnectedClass := "status-value " ++
      (if vehicleConnected then "charging-active" else "charging-stopped") }

/-- Current-limit block: `control.current_set` when numeric. -/
def updCurrentLimit (control : ControlDoc) (d : Display) : Display :=
  match control.current_set with
  | some n => { d with
      currentLimit := jsNumStr n ++ " A"
      sliderValue := n
      sliderText := jsNumStr n ++ "A" }
  | none => d

/-- Phase-button block: `control.phase_count` when truthy. -/
def updPhases (control : ControlDoc) (d : Display) : Display :=
  match control.phase_count with
  | some p =>
    if p = 0 then d
    else { d with phase1Active := p = 1, phase3Active := p = 3 }
  | none => d

/-- `updateStatusDisplay(data)` (app.js): normalizes the merged
control/values payload into the display model, block by block in source
order. -/
def updateStatusDisplay (data : StatusData) (dsp0 : Display) : Display :=
  let control := data.control.getD ⟨none, none⟩
  let values := data.values.getD ⟨none, none, none, none⟩
  let general := values.general.getD ⟨none⟩
  let energy := values.energy.getD ⟨none, none⟩
  let powerflow := values.powerflow.getD emptyPowerflow
  let temperatures := values.temperatures.getD ⟨none⟩
  let statusCode := general.status
  updPhases control
    (updCurrentLimit control
      (updVehicleConnected statusCode
        (updTemperature temperatures
          (updVoltage powerflow
            (updCurrent powerflow statusCode
              (updTotalEnergy energy
                (updSessionEnergy energy
                  (updPower powerflow
                    (updateChargingState statusCode dsp0)))))))))

/-- `Promise.all` on two settled promises: rejects with the first rejection
(left argument first), resolves with the pair otherwise. -/
def promiseAll2 {ε α β : Type} : Except ε α → Except ε β → Except ε (α × β)
  | .error e, _ => .error e
  | .ok _, .error e => .error e
  | .ok a, .ok b => .ok (a, b)

/-- `fetchChargerStatus()` (app.js): awaits both the `/control` and `/values`
requests via `Promise.all`, merges them into `{ control, values }`, applies
`updateStatusDisplay`, and returns the merged status.  On any rejection the
whole call rejects and the display is untouched. -/
def fetchChargerStatus (rc : Except String ControlDoc)
    (rv : Except String ValuesDoc) (dsp : Display) :
    Except String StatusData × Display :=
  match promiseAll2 rc rv with
  | .error e => (.error e, dsp)
  | .ok (control, values) =>
    let status : StatusData := ⟨some control, some values⟩
    (.ok status, updateStatusDisplay status dsp)

/-- The source's local `values` (`data.values || {}`). -/
def valuesOf (data : StatusData) : ValuesDoc :=
  data.values.getD ⟨none, none, none, none⟩

/-- The source's local `powerflow` (`values.powerflow || {}`). -/
def powerflowOf (data : StatusData) : PowerflowDoc :=
  (valuesOf data).powerflow.getD emptyPowerflow

/-- The source's local `energy` (`values.energy || {}`). -/
def energySectionOf (data : StatusData) : EnergyDoc :=
  (valuesOf data).energy.getD ⟨none, none⟩

/-- The source's local `statusCode` (`(values.general || {}).status`). -/
def statusCodeOf (data : StatusData) : Option ℚ :=
  ((valuesOf data).general.getD ⟨none⟩).status

theorem updSessionEnergy_powerValue (e : EnergyDoc) (d : Display) :
    (updSessionEnergy e d).powerValue = d.powerValue := by
  cases h : e.charged_energy <;> simp [updSessionEnergy, h]

theorem updTotalEnergy_powerValue (e : EnergyDoc) (d : Display) :
    (updTotalEnergy e d).powerValue = d.powerValue := by
  cases h : e.total_charged_energy <;> simp [updTotalEnergy, h]

theorem updCurrent_powerValue (pf : PowerflowDoc) (sc : Option ℚ)
    (d : Display) : (updCurrent pf sc d).powerValue = d.powerValue := by
  cases h : pf.charging_current <;> simp [updCurrent, h] <;> split <;>
    (try split) <;> rfl

theorem updVoltage_powerValue (pf : PowerflowDoc) (d : Display) :
    (updVoltage pf d).powerValue = d.powerValue := by
  cases h : pf.charging_voltage <;>
    simp [updVoltage, updVoltageFallback, h] <;> split <;> (try split) <;> rfl

theorem updTemperature_powerValue (t : TemperaturesDoc) (d : Display) :
    (updTemperature t d).powerValue = d.powerValue := by
  cases h : t.housing <;> simp [updTemperature, h]

theorem updVehicleConnected_powerValue (sc : Option ℚ) (d : Display) :
    (updVehicleConnected sc d).powerValue = d.powerValue := rfl

theorem updCurrentLimit_powerValue (c : ControlDoc) (d : Display) :
    (updCurrentLimit c d).powerValue = d.powerValue := by
  cases h : c.current_set <;> simp [updCurrentLimit, h]

theorem updPhases_powerValue (c : ControlDoc) (d : Display) :
    (updPhases c d).powerValue = d.powerValue := by
  cases h : c.phase_count <;> simp [updPhases, h] <;> split <;> rfl

theorem updPower_powerValue (pf : PowerflowDoc) (d : Display) :
    (updPower pf d).powerValue =
      match pf.total_active_power with
      | some p => toFixed 2 (p / 1000) ++ " kW"
      | none => d.powerValue := by
  cases h : pf.total_active_power <;> simp [updPower, h]

theorem updateChargingState_powerValue (sc : Option ℚ) (d : Display) :
    (updateChargingState sc d).powerValue = d.powerValue := by
  cases sc <;> rfl

/-- Field characterization: the displayed power string. -/
theorem usd_powerValue (data : StatusData) (dsp : Display) :
    (updateStatusDisplay data dsp).powerValue =
      match (powerflowOf data).total_active_power with
      | some p => toFixed 2 (p / 1000) ++ " kW"
      | none => dsp.powerValue := by
  simp only [updateStatusDisplay, updPhases_powerValue,
    updCurrentLimit_powerValue, updVehicleConnected_powerValue,
    updTemperature_powerValue, updVoltage_powerValue, updCurrent_powerValue,
    updTotalEnergy_powerValue, updSessionEnergy_powerValue,
    updPower_powerValue, updateChargingState_powerValue]
  rfl

theorem updTotalEnergy_energySession (e : EnergyDoc) (d : Display) :
    (updTotalEnergy e d).energySession = d.energySession := by
  cases h : e.total_charged_energy <;> simp [updTotalEnergy, h]

theorem updCurrent_energySession (pf : PowerflowDoc) (sc : Option ℚ)
    (d : Display) : (updCurrent pf sc d).energySession = d.energySession := by
  cases h : pf.charging_current <;> simp only [updCurrent, h] <;> split <;>
    (try split) <;> rfl

theorem updVoltage_energySession (pf : PowerflowDoc) (d : Display) :
    (updVoltage pf d).energySession = d.energySession := by
  cases h : pf.charging_voltage <;>
    simp only [updVoltage, updVoltageFallback, h] <;> split <;> (try split) <;>
    rfl

theorem updTemperature_energySession (t : TemperaturesDoc) (d : Display) :
    (updTemperature t d).energySession = d.energySession := by
  cases h : t.housing <;> simp [updTemperature, h]

theorem updVehicleConnected_energySession (sc : Option ℚ) (d : Display) :
    (updVehicleConnected sc d).energySession = d.energySession := rfl

theorem updCurrentLimit_energySession (c : ControlDoc) (d : Display) :
    (updCurrentLimit c d).energySession = d.energySession := by
  cases h : c.current_set <;> simp [updCurrentLimit, h]

theorem updPhases_energySession (c : ControlDoc) (d : Display) :
    (updPhases c d).energySession = d.energySession := by
  cases h : c.phase_count <;> simp only [updPhases, h] <;> split <;> rfl

theorem updSessionEnergy_energySession (e : EnergyDoc) (d : Display) :
    (updSessionEnergy e d).energySession =
      match e.charged_energy with
      | some v => toFixed 2 (v / 1000) ++ " kWh"
      | none => d.energySession := by
  cases h : e.charged_energy <;> simp [updSessionEnergy, h]

theorem updPower_energySession (pf : PowerflowDoc) (d : Display) :
    (updPower pf d).energySession = d.energySession := by
  cases h : pf.total_active_power <;> simp [updPower, h]

theorem updateChargingState_energySession (sc : Option ℚ) (d : Display) :
    (updateChargingState sc d).energySession = d.energySession := by
  cases sc <;> rfl

/-- Field characterization: the displayed session-energy string. -/
theorem usd_energySession (data : StatusData) (dsp : Display) :
    (updateStatusDisplay data dsp).energySession =
      match (energySectionOf data).charged_energy with
      | some e => toFixed 2 (e / 1000) ++ " kWh"
      | none => dsp.energySession := by
  simp only [updateStatusDisplay, updPhases_energySession,
    updCurrentLimit_energySession, updVehicleConnected_energySession,
    updTemperature_energySession, updVoltage_energySession,
    updCurrent_energySession, updTotalEnergy_energySession,
    updSessionEnergy_energySession, updPower_energySession,
    updateChargingState_energySession]
  rfl

theorem updCurrentLimit_vehicleText (c : ControlDoc) (d : Display) :
    (updCurrentLimit c d).vehicleConnectedText = d.vehicleConnectedText := by
  cases h : c.current_set <;> simp [updCurrentLimit, h]

theorem updPhases_vehicleText (c : ControlDoc) (d : Display) :
    (updPhases c d).vehicleConnectedText = d.vehicleConnectedText := by
  cases h : c.phase_count <;> simp only [updPhases, h] <;> split <;> rfl

/-- Field characterization: the vehicle-connected indicator text. -/
theorem usd_vehicleConnectedText (data : StatusData) (dsp : Display) :
    (updateStatusDisplay data dsp).vehicleConnectedText =
      if jsGE (statusCodeOf data) 2 then "Yes" else "No" := by
  simp only [updateStatusDisplay, updPhases_vehicleText,
    updCurrentLimit_vehicleText]
  rfl

theorem toFixedAbs_two_decimals (y : ℚ) :
    ∃ (a b : Char) (rest : List Char),
      (toFixedAbs 2 y).data.reverse = b :: a :: '.' :: rest ∧
      a.isDigit = true ∧ b.isDigit = true := by
  have hd : ∀ k : Nat, k < 10 → (Nat.digitChar k).isDigit = true := by decide
  have key : toFixedAbs 2 y =
      Nat.repr ((⌊y * (10 : ℚ) ^ 2 + 1 / 2⌋).toNat / 100) ++ "." ++
        String.mk
          [Nat.digitChar ((⌊y * (10 : ℚ) ^ 2 + 1 / 2⌋).toNat % 100 / 10 % 10),
           Nat.digitChar ((⌊y * (10 : ℚ) ^ 2 + 1 / 2⌋).toNat % 100 % 10)] := rfl
  refine ⟨Nat.digitChar ((⌊y * (10 : ℚ) ^ 2 + 1 / 2⌋).toNat % 100 / 10 % 10),
    Nat.digitChar ((⌊y * (10 : ℚ) ^ 2 + 1 / 2⌋).toNat % 100 % 10),
    (Nat.repr ((⌊y * (10 : ℚ) ^ 2 + 1 / 2⌋).toNat / 100)).data.reverse, ?_,
    hd _ (Nat.mod_lt _ (by norm_num)), hd _ (Nat.mod_lt _ (by norm_num))⟩
  rw [key]
  simp [String.data_append]

theorem toFixed_two_decimals (x : ℚ) :
    ∃ (a b : Char) (rest : List Char),
      (toFixed 2 x).data.reverse = b :: a :: '.' :: rest ∧
      a.isDigit = true ∧ b.isDigit = true := by
  by_cases hx : x < 0
  · obtain ⟨a, b, rest, h, ha, hb⟩ := toFixedAbs_two_decimals (-x)
    refine ⟨a, b, rest ++ ['-'], ?_, ha, hb⟩
    simp only [toFixed, if_pos hx, String.data_append, List.reverse_append, h]
    rfl
  · obtain ⟨a, b, rest, h, ha, hb⟩ := toFixedAbs_two_decimals x
    exact ⟨a, b, rest, by simpa [toFixed, if_neg hx] using h, ha, hb⟩

/-- A concrete display state, as left by `resetStatusValues()`. -/
def sampleDisplay : Display :=
  { chargingStateText := "--", chargingStateClass := "status-value",
    powerValue := "-- kW", energySession := "-- kWh", totalEnergy := "-- kWh",
    currentValue := "-- A", voltageValue := "-- V",
    temperatureValue := "-- °C", vehicleConnectedText := "--",
    vehicleConnectedClass := "status-value", currentLimit := "-- A",
    sliderValue := 0, sliderText := "", phase1Active := false,
    phase3Active := false }

/-- A concrete powerflow section reporting 1500 W. -/
def samplePowerflow : PowerflowDoc :=
  { charging_voltage := none, charging_current := none,
    total_active_power := some 1500, l1 := none, l2 := none, l3 := none }

/-- A concrete `/values`-style payload: status 3, 1500 W, 2345 Wh session. -/
def sampleValues : ValuesDoc :=
  { general := some ⟨some 3⟩, energy := some ⟨none, some 2345⟩,
    powerflow := some samplePowerflow, temperatures := none }

def sampleStatusData : StatusData := ⟨none, some sampleValues⟩

/-- C9: for every numeric power value p (W) and session-energy value e (Wh)
in the payload, the displayed strings are `p/1000` and `e/1000` formatted by
`toFixed(2)` — exactly two decimal places — plus the unit suffix; an absent
(non-numeric) value leaves the previous display text unchanged. -/
theorem power_energy_display_formatting :
    (∀ (data : StatusData) (dsp : Display) (p : ℚ),
      (powerflowOf data).total_active_power = some p →
      (updateStatusDisplay data dsp).powerValue =
        toFixed 2 (p / 1000) ++ " kW") ∧
    (∀ (data : StatusData) (dsp : Display) (e : ℚ),
      (energySectionOf data).charged_energy = some e →
      (updateStatusDisplay data dsp).energySession =
        toFixed 2 (e / 1000) ++ " kWh") ∧
    (∀ (data : StatusData) (dsp : Display),
      (powerflowOf data).total_active_power = none →
      (updateStatusDisplay data dsp).powerValue = dsp.powerValue) ∧
    (∀ (data : StatusData) (dsp : Display),
      (energySectionOf data).charged_energy = none →
      (updateStatusDisplay data dsp).energySession = dsp.energySession) ∧
    (∀ x : ℚ, ∃ (a b : Char) (rest : List Char),
      (toFixed 2 x).data.reverse = b :: a :: '.' :: rest ∧
      a.isDigit = true ∧ b.isDigit = true) := by
  refine ⟨?_, ?_, ?_, ?_, toFixed_two_decimals⟩
  · intro data dsp p h
    rw [usd_powerValue, h]
  · intro data dsp e h
    rw [usd_energySession, h]
  · intro data dsp h
    rw [usd_powerValue, h]
  · intro data dsp h
    rw [usd_energySession, h]

theorem power_energy_display_formatting_witness :
    (updateStatusDisplay sampleStatusData sampleDisplay).powerValue
      = "1.50 kW" ∧
    (updateStatusDisplay sampleStatusData sampleDisplay).energySession
      = "2.35 kWh" := by
  constructor
  · rw [power_energy_display_formatting.1 sampleStatusData sampleDisplay
      1500 rfl]
    norm_num [toFixed, toFixedAbs, padDigits]
    decide
  · rw [power_energy_display_formatting.2.1 sampleStatusData sampleDisplay
      2345 rfl]
    norm_num [toFixed, toFixedAbs, padDigits]
    decide

/-- C10: the vehicle-connected indicator shows "Yes" exactly when the
numeric charging-state code is at least 2 and "No" otherwise; in
particular an absent status code yields "No". -/
theorem vehicle_connected_ge_two :
    (∀ (data : StatusData) (dsp : Display),
      ((updateStatusDisplay data dsp).vehicleConnectedText = "Yes" ↔
        (∃ c : ℚ, statusCodeOf data = some c ∧ 2 ≤ c))) ∧
    (∀ (data : StatusData) (dsp : Display),
      (updateStatusDisplay data dsp).vehicleConnectedText = "Yes" ∨
      (updateStatusDisplay data dsp).vehicleConnectedText = "No") ∧
    (∀ (data : StatusData) (dsp : Display), statusCodeOf data = none →
      (updateStatusDisplay data dsp).vehicleConnectedText = "No") := by
  refine ⟨?_, ?_, ?_⟩
  · intro data dsp
    rw [usd_vehicleConnectedText]
    cases h : statusCodeOf data with
    | none => simp [jsGE]
    | some c =>
      by_cases h2 : (2 : ℚ) ≤ c <;> simp [jsGE, h2]
  · intro data dsp
    rw [usd_vehicleConnectedText]
    cases jsGE (statusCodeOf data) 2 <;> simp
  · intro data dsp h
    rw [usd_vehicleConnectedText, h]
    rfl

theorem vehicle_connected_ge_two_witness :
    (updateStatusDisplay (StatusData.mk none none)
        sampleDisplay).vehicleConnectedText = "No" ∧
    (updateStatusDisplay sampleStatusData
        sampleDisplay).vehicleConnectedText = "Yes" :=
  ⟨vehicle_connected_ge_two.2.2 (StatusData.mk none none) sampleDisplay rfl,
   (vehicle_connected_ge_two.1 sampleStatusData sampleDisplay).mpr
     ⟨3, rfl, by norm_num⟩⟩

/-- C3: `updateChargingState` follows the fixed `STATUS_MAP` lookup table:
code 3 yields "Charging" with the active style class, code 6 yields "Error"
with the error style class, an undefined/null code yields "--" with no style
class, and any code outside the table yields "Unknown" with an empty
(neutral) style class. -/
theorem updateChargingState_lookup :
    (∀ dsp : Display, updateChargingState (some 3) dsp =
      { dsp with chargingStateText := "Charging",
                 chargingStateClass := "status-value charging-active" }) ∧
    (∀ dsp : Display, updateChargingState (some 6) dsp =
      { dsp with chargingStateText := "Error",
                 chargingStateClass := "status-value charging-error" }) ∧
    (∀ dsp : Display, updateChargingState none dsp =
      { dsp with chargingStateText := "--",
                 chargingStateClass := "status-value" }) ∧
    (∀ (dsp : Display) (c : ℚ), c ∉ ([0, 1, 2, 3, 6, 7] : List ℚ) →
      updateChargingState (some c) dsp =
        { dsp with chargingStateText := "Unknown",
                   chargingStateClass := "status-value " }) := by
  refine ⟨?_, ?_, ?_, ?_⟩
  · intro dsp
    simp [updateChargingState, STATUS_MAP, stateClassOf, jsOrStr]
  · intro dsp
    simp [updateChargingState, STATUS_MAP, stateClassOf, jsOrStr]
  · intro dsp
    rfl
  · intro dsp c hc
    simp only [List.mem_cons, List.not_mem_nil, or_false, not_or] at hc
    obtain ⟨h0, h1, h2, h3, h6, h7⟩ := hc
    simp [updateChargingState, STATUS_MAP, stateClassOf, jsOrStr,
      h0, h1, h2, h3, h6, h7]

theorem updateChargingState_lookup_witness :
    updateChargingState (some 3) sampleDisplay =
      { sampleDisplay with chargingStateText := "Charging",
                           chargingStateClass :=
                             "status-value charging-active" } ∧
    updateChargingState (some 4) sampleDisplay =
      { sampleDisplay with chargingStateText := "Unknown",
                           chargingStateClass := "status-value " } :=
  ⟨updateChargingState_lookup.1 sampleDisplay,
   updateChargingState_lookup.2.2.2 sampleDisplay 4 (by norm_num)⟩

/-- C2: `fetchChargerStatus` awaits the `/control` and `/values` results
jointly and merges them; if either rejects, the whole refresh rejects and
the display is left exactly as it was (no partial update). -/
theorem fetchChargerStatus_all_or_nothing :
    (∀ (e : String) (rv : Except String ValuesDoc) (dsp : Display),
      fetchChargerStatus (Except.error e) rv dsp = (Except.error e, dsp)) ∧
    (∀ (rc : Except String ControlDoc) (e : String) (dsp : Display),
      (fetchChargerStatus rc (Except.error e) dsp).2 = dsp ∧
      ∃ e', (fetchChargerStatus rc (Except.error e) dsp).1
        = Except.error e') ∧
    (∀ (c : ControlDoc) (v : ValuesDoc) (dsp : Display),
      fetchChargerStatus (Except.ok c) (Except.ok v) dsp =
        (Except.ok ⟨some c, some v⟩,
          updateStatusDisplay ⟨some c, some v⟩ dsp)) := by
  refine ⟨?_, ?_, ?_⟩
  · intro e rv dsp
    cases rv <;> rfl
  · intro rc e dsp
    cases rc with
    | error e1 => exact ⟨rfl, ⟨e1, rfl⟩⟩
    | ok c => exact ⟨rfl, ⟨e, rfl⟩⟩
  · intro c v dsp
    rfl

/-!
## Server side: the fixed-address server bundled with app.js and the
path-addressed proxy server (`server.js` variants)

Strings are processed at the character-list level (`String.data`), which for
the ASCII paths, credentials and headers involved coincides with the
JavaScript string operations used by the source.
-/

/-- UTF-8 bytes of one character (as used by `Buffer.from(str)`). -/
def utf8Bytes (c : Char) : List Nat :=
  let n := c.toNat
  if n < 128 then [n]
  else if n < 2048 then [192 + n / 64, 128 + n % 64]
  else if n < 65536 then [224 + n / 4096, 128 + n / 64 % 64, 128 + n % 64]
  else [240 + n / 262144, 128 + n / 4096 % 64, 128 + n / 64 % 64,
    128 + n % 64]

/-- UTF-8 byte sequence of a string. -/
def strBytes (s : String) : List Nat :=
  (s.data.map utf8Bytes).join

/-- The base64 alphabet character for a sextet. -/
def base64Char (n : Nat) : Char :=
  ("ABCDEFGHIJKLMNOPQRSTUVWXYZabcdefghijklmnopqrstuvwxyz0123456789+/").data.getD
    n 'A'

/-- RFC 4648 base64 of a byte sequence, processed three bytes at a time. -/
def base64Chunks : List Nat → List Char
  | [] => []
  | [b0] => [base64Char (b0 / 4), base64Char (b0 % 4 * 16), '=', '=']
  | [b0, b1] => [base64Char (b0 / 4), base64Char (b0 % 4 * 16 + b1 / 16),
      base64Char (b1 % 16 * 4), '=']
  | b0 :: b1 :: b2 :: rest =>
    base64Char (b0 / 4) :: base64Char (b0 % 4 * 16 + b1 / 16) ::
      base64Char (b1 % 16 * 4 + b2 / 64) :: base64Char (b2 % 64) ::
        base64Chunks rest

/-- `Buffer.from(s).toString('base64')` / `btoa` for ASCII input. -/
def base64Encode (s : String) : String :=
  String.mk (base64Chunks (strBytes s))

/-- `s.split(sep)` for a one-character separator, on character lists. -/
def splitOnChar (sep : Char) : List Char → List (List Char)
  | [] => [[]]
  | c :: rest =>
    let tail := splitOnChar sep rest
    if c = sep then [] :: tail
    else
      match tail with
      | t :: ts => (c :: t) :: ts
      | [] => [[c]]

/-- `s.startsWith(t)` via the character data. -/
def jsStartsWith (s t : String) : Bool :=
  s.data.take t.data.length = t.data

/-- ASCII code class `\d` of the octet regex (48 = '0' … 57 = '9'). -/
def isDigitCode (n : Nat) : Bool :=
  48 ≤ n && n ≤ 57

/-- Full-string match of one octet against the alternation
`25[0-5] | 2[0-4]\d | 1\d{2} | [1-9]?\d` of the server's `ipRegex`
(character codes: 49 = '1', 50 = '2', 52 = '4', 53 = '5'). -/
def octetMatch (cs : List Char) : Bool :=
  match cs.map Char.toNat with
  | [a] => isDigitCode a
  | [a, b] => (49 ≤ a && a ≤ 57) && isDigitCode b
  | [a, b, c] =>
    (a = 49 && isDigitCode b && isDigitCode c) ||
    (a = 50 && (48 ≤ b && b ≤ 52) && isDigitCode c) ||
    (a = 50 && b = 53 && (48 ≤ c && c ≤ 53))
  | _ => false

/-- The server's `ipRegex.test(targetIP)`: four dot-separated octets. -/
def isValidIPv4 (s : String) : Bool :=
  match splitOnChar '.' s.data with
  | [a, b, c, d] => octetMatch a && octetMatch b && octetMatch c && octetMatch d
  | _ => false

/-- Decimal value of a digit-character sequence. -/
def decVal (cs : List Char) : Nat :=
  (cs.map Char.toNat).foldl (fun acc d => 10 * acc + (d - 48)) 0

/-- The request fields the handlers read. -/
structure ServerRequest where
  method : String
  pathname : String
  search : String
  authorization : Option String
  deriving Repr, DecidableEq

/-- What a handler does with a request: answer directly, forward one
outbound GET `(hostname, path, authHeader)` to the device, or serve a static
file. -/
inductive ServerAction where
  | respond (status : Nat) (body : String)
  | forward (hostname : String) (path : String) (auth : Option String)
  | serveStatic (pathname : String)
  deriving Repr, DecidableEq

/-- Outbound device calls an action performs. -/
def outboundCalls : ServerAction → List (String × String × Option String)
  | .forward h p a => [(h, p, a)]
  | _ => []

/-- `JSON.stringify` of a boolean. -/
def jsBoolStr (b : Bool) : String :=
  if b then "true" else "false"

/-- Environment configuration of the fixed-address server. -/
structure FixedEnv where
  NRGKICK_IP : String
  NRGKICK_USER : String
  NRGKICK_PASS : String
  deriving Repr, DecidableEq

namespace FixedServer

/-- The auth header built from environment variables: present exactly when
both `NRGKICK_USER` and `NRGKICK_PASS` are configured (truthy). -/
def envAuthHeader (env : FixedEnv) : Option String :=
  if env.NRGKICK_USER ≠ "" ∧ env.NRGKICK_PASS ≠ "" then
    some ("Basic " ++
      base64Encode (env.NRGKICK_USER ++ ":" ++ env.NRGKICK_PASS))
  else none

/-- The `/api/config` response body. -/
def configBody (env : FixedEnv) : String :=
  "\x7b\"configured\":" ++ jsBoolStr (env.NRGKICK_IP ≠ "") ++
    ",\"ip\":\"" ++ env.NRGKICK_IP ++ "\",\"hasAuth\":" ++
    jsBoolStr (env.NRGKICK_USER ≠ "" && env.NRGKICK_PASS ≠ "") ++ "\x7d"

/-- `handleRequest` of the fixed-address server: OPTIONS preflight, then
`/api/config`, then the `/api/` proxy branch (503 when no IP is configured,
otherwise one outbound call carrying the env-derived auth header — the
incoming request's own Authorization header is never read), else static
files. -/
def handleRequest (env : FixedEnv) (req : ServerRequest) : ServerAction :=
  if req.method = "OPTIONS" then .respond 204 ""
  else if req.pathname = "/api/config" then .respond 200 (configBody env)
  else if jsStartsWith req.pathname "/api/" then
    if env.NRGKICK_IP = "" then
      .respond 503
        "\x7b\"error\":\"NRGKick IP not configured. Set NRGKICK_IP environment variable.\"\x7d"
    else
      .forward env.NRGKICK_IP
        (String.mk (req.pathname.data.drop 4) ++ req.search)
        (envAuthHeader env)
  else .serveStatic req.pathname

end FixedServer

namespace PathServer

/-- The address token of a path-addressed request: `pathParts[0]` after
stripping `/api/`. -/
def targetIPOf (req : ServerRequest) : String :=
  String.mk ((splitOnChar '/' (req.pathname.data.drop 5)).headD [])

/-- The forwarded path: the remaining parts re-joined, plus the query. -/
def targetPathOf (req : ServerRequest) : String :=
  "/" ++ String.intercalate "/"
    (((splitOnChar '/' (req.pathname.data.drop 5)).drop 1).map String.mk) ++
    req.search

/-- `handleRequest` of the path-addressed proxy server: OPTIONS preflight,
then the `/api/<ip>/<endpoint>` branch — the ip token is validated against
`ipRegex` before anything is forwarded; on failure a 400 error body is
answered and no outbound call happens — else static files. -/
def handleRequest (req : ServerRequest) : ServerAction :=
  if req.method = "OPTIONS" then .respond 204 ""
  else if jsStartsWith req.pathname "/api/" then
    let targetIP := targetIPOf req
    if targetIP = "" || !isValidIPv4 targetIP then
      .respond 400 "\x7b\"error\":\"Invalid IP address format\"\x7d"
    else .forward targetIP (targetPathOf req) req.authorization
  else .serveStatic req.pathname

end PathServer

/-- `PROXY_TIMEOUT_MS` (both server variants). -/
def PROXY_TIMEOUT_MS : Nat := 10000

/-- How the single outbound request settles: a device response (chunks
arriving on `data`), a connection error, or the socket timeout. -/
inductive DeviceOutcome where
  | response (status : Nat) (chunks : List String)
  | connError (msg : String)
  | timeout
  deriving Repr, DecidableEq

/-- Observable effect of one `proxyRequest(...)` call: the single response
written to the client, the outbound calls issued, whether the outbound
request was destroyed. -/
structure ProxyResult where
  status : Nat
  body : String
  outbound : List (String × String × Option String)
  destroyed : Bool
  responsesSent : Nat
  deriving Repr, DecidableEq

/-- `proxyRequest(targetIP, targetPath, authHeader, res)`: issues exactly
one outbound GET and installs three handlers; whichever fires writes exactly
one client response.  The `timeout` handler destroys the request, answers
504 with the fixed error body, and does not re-issue the request. -/
def proxyRequest (targetIP targetPath : String) (authHeader : Option String)
    (outcome : DeviceOutcome) : ProxyResult :=
  match outcome with
  | .response st chunks =>
    { status := st, body := String.join chunks,
      outbound := [(targetIP, targetPath, authHeader)], destroyed := false,
      responsesSent := 1 }
  | .connError msg =>
    { status := 502,
      body := "\x7b\"error\":\"Failed to connect to NRGKick device\",\"details\":\"" ++
        msg ++ "\"\x7d",
      outbound := [(targetIP, targetPath, authHeader)], destroyed := false,
      responsesSent := 1 }
  | .timeout =>
    { status := 504,
      body := "\x7b\"error\":\"Connection to NRGKick device timed out\"\x7d",
      outbound := [(targetIP, targetPath, authHeader)], destroyed := true,
      responsesSent := 1 }

/-- Node socket timeout (`timeout: PROXY_TIMEOUT_MS`): the `timeout` event
fires instead of `response` when the device takes longer than the bound. -/
def outcomeOfDelay (delayMs : Nat) (devStatus : Nat)
    (devChunks : List String) : DeviceOutcome :=
  if PROXY_TIMEOUT_MS < delayMs then .timeout
  else .response devStatus devChunks

/-!
## Client request / device-info normalization (app.js)
-/

/-- The message fields `apiRequest` probes in a parsed JSON body (any other
payload content is irrelevant to the check). -/
structure ApiBody where
  Response : Option String
  error : Option String
  deriving Repr, DecidableEq

/-- The settled `fetch` response as `apiRequest` sees it. -/
structure FetchResponse where
  ok : Bool
  status : Nat
  statusText : String
  body : ApiBody
  deriving Repr, DecidableEq

/-- `apiRequest` (app.js) after the fetch resolves: non-ok status throws
`HTTP <status>: <statusText>`; then `if (data.Response) throw`, then
`if (data.error) throw` — JS truthiness, so a present-but-empty message
string does not throw — else the body is returned as data. -/
def apiRequest (resp : FetchResponse) : Except String ApiBody :=
  if resp.ok = false then
    Except.error ("HTTP " ++ Nat.repr resp.status ++ ": " ++ resp.statusText)
  else if jsTruthyStr resp.body.Response then
    Except.error (resp.body.Response.getD "")
  else if jsTruthyStr resp.body.error then
    Except.error (resp.body.error.getD "")
  else Except.ok resp.body

/-- JS property access `obj[k]` on an object with string values. -/
def jget (o : List (String × String)) (k : String) : Option String :=
  (o.find? (fun p => p.1 == k)).map (fun p => p.2)

/-- The `/info` document as `updateDeviceInfo` reads it: each section is an
object whose string-valued keys are probed dynamically. -/
structure InfoDoc where
  general : Option (List (String × String))
  versions : Option (List (String × String))
  connector : Option (List (String × String))
  deriving Repr, DecidableEq

/-- The three texts `updateDeviceInfo` writes. -/
structure DeviceInfoDisplay where
  serialNumber : String
  firmwareVersion : String
  model : String
  deriving Repr, DecidableEq

/-- `updateDeviceInfo(info)` (app.js): `general.serial_number || '--'`,
`versions.sw_sm || versions.smartmodule || '--'`,
`general.model_type || 'NRGKick'`.  (`connector` is bound but unused in the
source.) -/
def updateDeviceInfo (info : InfoDoc) : DeviceInfoDisplay :=
  let general := info.general.getD []
  let versions := info.versions.getD []
  { serialNumber := jsOrStr (jget general "serial_number") "--"
    firmwareVersion := jsOrStr (jget versions "sw_sm")
      (jsOrStr (jget versions "smartmodule") "--")
    model := jsOrStr (jget general "model_type") "NRGKick" }

theorem jsOrStr_of_truthy {a : Option String} {v : String} (h : a = some v)
    (hv : v ≠ "") (b : String) : jsOrStr a b = v := by
  subst h
  simp [jsOrStr, hv]

theorem jsOrStr_of_falsy {a : Option String} (h : jsTruthyStr a = false)
    (b : String) : jsOrStr a b = b := by
  cases a with
  | none => rfl
  | some s =>
    simp [jsTruthyStr] at h
    simp [jsOrStr, h]

theorem octetMatch_le_255 (cs : List Char) (h : octetMatch cs = true) :
    cs.length ≤ 3 ∧ decVal cs ≤ 255 ∧
    (cs.map Char.toNat).all isDigitCode = true := by
  rcases cs with _ | ⟨a, _ | ⟨b, _ | ⟨c, _ | ⟨d, tl⟩⟩⟩⟩
  · simp [octetMatch] at h
  · simp only [octetMatch, List.map_cons, List.map_nil, isDigitCode,
      Bool.and_eq_true, decide_eq_true_eq] at h
    refine ⟨by norm_num, ?_, ?_⟩
    · simp only [decVal, List.map_cons, List.map_nil, List.foldl_cons,
        List.foldl_nil]
      omega
    · simp only [List.map_cons, List.map_nil, List.all_cons, List.all_nil,
        isDigitCode, Bool.and_eq_true, Bool.and_true, decide_eq_true_eq]
      omega
  · simp only [octetMatch, List.map_cons, List.map_nil, isDigitCode,
      Bool.and_eq_true, decide_eq_true_eq] at h
    refine ⟨by norm_num, ?_, ?_⟩
    · simp only [decVal, List.map_cons, List.map_nil, List.foldl_cons,
        List.foldl_nil]
      omega
    · simp only [List.map_cons, List.map_nil, List.all_cons, List.all_nil,
        isDigitCode, Bool.and_eq_true, Bool.and_true, decide_eq_true_eq]
      omega
  · simp only [octetMatch, List.map_cons, List.map_nil, isDigitCode,
      Bool.or_eq_true, Bool.and_eq_true, decide_eq_true_eq] at h
    refine ⟨by norm_num, ?_, ?_⟩
    · simp only [decVal, List.map_cons, List.map_nil, List.foldl_cons,
        List.foldl_nil]
      omega
    · simp only [List.map_cons, List.map_nil, List.all_cons, List.all_nil,
        isDigitCode, Bool.and_eq_true, Bool.and_true, decide_eq_true_eq]
      omega
  · simp [octetMatch] at h

/-- C7: the path-addressed proxy validates the address token as an IPv4
dotted-quad — four dot-separated all-digit octets each of value at most
255 — before any outbound request; an invalid or missing token yields
exactly the 400 response `{error: "Invalid IP address format"}` and zero
outbound calls, and a forward can only carry a validated token. -/
theorem path_proxy_ipv4_validation :
    (∀ req : ServerRequest, req.method ≠ "OPTIONS" →
      jsStartsWith req.pathname "/api/" = true →
      isValidIPv4 (PathServer.targetIPOf req) = false →
      PathServer.handleRequest req =
        ServerAction.respond 400
          "\x7b\"error\":\"Invalid IP address format\"\x7d" ∧
      outboundCalls (PathServer.handleRequest req) = []) ∧
    (∀ (req : ServerRequest) (h p : String) (a : Option String),
      PathServer.handleRequest req = ServerAction.forward h p a →
      isValidIPv4 (PathServer.targetIPOf req) = true ∧
      h = PathServer.targetIPOf req) ∧
    (∀ s : String, isValidIPv4 s = true →
      (splitOnChar '.' s.data).length = 4 ∧
      ∀ part ∈ splitOnChar '.' s.data, decVal part ≤ 255 ∧
        (part.map Char.toNat).all isDigitCode = true) := by
  refine ⟨?_, ?_, ?_⟩
  · intro req hm hs hv
    constructor <;> simp [PathServer.handleRequest, outboundCalls, hm, hs, hv]
  · intro req h p a heq
    simp only [PathServer.handleRequest] at heq
    repeat' split at heq
    all_goals simp_all
  · intro s hv
    unfold isValidIPv4 at hv
    rcases hl : splitOnChar '.' s.data with _ | ⟨a, _ | ⟨b, _ | ⟨c,
      _ | ⟨d, _ | ⟨e, tl⟩⟩⟩⟩⟩ <;> rw [hl] at hv <;>
      try exact Bool.noConfusion hv
    have hv4 : ((octetMatch a = true ∧ octetMatch b = true) ∧
        octetMatch c = true) ∧ octetMatch d = true := by
      simpa [Bool.and_eq_true] using hv
    obtain ⟨⟨⟨ha, hb⟩, hc⟩, hd⟩ := hv4
    refine ⟨by simp [hl], ?_⟩
    intro part hmem
    simp only [List.mem_cons, List.not_mem_nil, or_false] at hmem
    rcases hmem with rfl | rfl | rfl | rfl
    · exact ⟨(octetMatch_le_255 part ha).2.1, (octetMatch_le_255 part ha).2.2⟩
    · exact ⟨(octetMatch_le_255 part hb).2.1, (octetMatch_le_255 part hb).2.2⟩
    · exact ⟨(octetMatch_le_255 part hc).2.1, (octetMatch_le_255 part hc).2.2⟩
    · exact ⟨(octetMatch_le_255 part hd).2.1, (octetMatch_le_255 part hd).2.2⟩

/-- The test fixture: a path-addressed request with address token
`999.1.1.1`. -/
def invalidIpReq : ServerRequest :=
  ⟨"GET", "/api/999.1.1.1/info", "", none⟩

theorem path_proxy_ipv4_validation_witness :
    PathServer.handleRequest invalidIpReq =
      ServerAction.respond 400
        "\x7b\"error\":\"Invalid IP address format\"\x7d" ∧
    outboundCalls (PathServer.handleRequest invalidIpReq) = [] :=
  path_proxy_ipv4_validation.1 invalidIpReq (by decide) (by decide)
    (by decide)

/-- C8: when the outbound request exceeds `PROXY_TIMEOUT_MS`, `proxyRequest`
answers exactly once with status 504 and the fixed timeout error body and
destroys the outbound request; in every case it issues exactly one outbound
call (no retry). -/
theorem proxy_timeout_504_no_retry :
    (∀ (ip path : String) (auth : Option String) (delay st : Nat)
      (chunks : List String), PROXY_TIMEOUT_MS < delay →
      proxyRequest ip path auth (outcomeOfDelay delay st chunks) =
        { status := 504,
          body :=
            "\x7b\"error\":\"Connection to NRGKick device timed out\"\x7d",
          outbound := [(ip, path, auth)], destroyed := true,
          responsesSent := 1 }) ∧
    (∀ (ip path : String) (auth : Option String) (outcome : DeviceOutcome),
      (proxyRequest ip path auth outcome).outbound = [(ip, path, auth)] ∧
      (proxyRequest ip path auth outcome).responsesSent = 1) := by
  constructor
  · intro ip path auth delay st chunks h
    simp [outcomeOfDelay, h, proxyRequest]
  · intro ip path auth outcome
    cases outcome <;> simp [proxyRequest]

theorem proxy_timeout_504_no_retry_witness :
    proxyRequest "192.168.1.50" "/values" none
        (outcomeOfDelay 10001 200 []) =
      { status := 504,
        body := "\x7b\"error\":\"Connection to NRGKick device timed out\"\x7d",
        outbound := [("192.168.1.50", "/values", none)], destroyed := true,
        responsesSent := 1 } :=
  proxy_timeout_504_no_retry.1 "192.168.1.50" "/values" none 10001 200 []
    (by decide)

/-- C6 counterexample: an HTTP-200 body that does contain the `Response`
message field — holding the empty string — is returned by `apiRequest` as
valid data, not thrown (JS truthiness skips the check). -/
theorem apiRequest_empty_message_counterexample :
    apiRequest ⟨true, 200, "OK", ⟨some "", none⟩⟩ =
      Except.ok ⟨some "", none⟩ ∧
    (ApiBody.mk (some "") none).Response ≠ none := by
  exact ⟨rfl, by decide⟩

/-- C6 (amended): if the parsed body carries a non-empty message — the
device's `Response` key, or else the proxy's `error` key — `apiRequest`
throws an error carrying that message instead of returning the body, even
on HTTP 200; with no truthy message field the body is returned as data. -/
theorem apiRequest_message_surfaced :
    (∀ (resp : FetchResponse) (m : String), resp.ok = true →
      resp.body.Response = some m → m ≠ "" →
      apiRequest resp = Except.error m) ∧
    (∀ (resp : FetchResponse) (m : String), resp.ok = true →
      jsTruthyStr resp.body.Response = false →
      resp.body.error = some m → m ≠ "" →
      apiRequest resp = Except.error m) ∧
    (∀ resp : FetchResponse, resp.ok = true →
      jsTruthyStr resp.body.Response = false →
      jsTruthyStr resp.body.error = false →
      apiRequest resp = Except.ok resp.body) := by
  refine ⟨?_, ?_, ?_⟩
  · intro resp m hok hr hm
    simp [apiRequest, hok, jsTruthyStr, hr, hm]
  · intro resp m hok h1 hr hm
    have hts : jsTruthyStr resp.body.error = true := by
      simp [hr, jsTruthyStr, hm]
    simp [apiRequest, hok, h1, hts, hr]
    simp [jsTruthyStr, hm]
  · intro resp hok h1 h2
    simp [apiRequest, hok, h1, h2]

theorem apiRequest_message_surfaced_witness :
    apiRequest ⟨true, 200, "OK", ⟨some "Unknown parameter", none⟩⟩ =
      Except.error "Unknown parameter" ∧
    apiRequest ⟨true, 200, "OK",
        ⟨none, some "Failed to connect to NRGKick device"⟩⟩ =
      Except.error "Failed to connect to NRGKick device" ∧
    apiRequest ⟨true, 200, "OK", ⟨none, none⟩⟩ =
      Except.ok ⟨none, none⟩ :=
  ⟨apiRequest_message_surfaced.1 _ _ rfl rfl (by decide),
   apiRequest_message_surfaced.2.1 _ _ rfl rfl rfl (by decide),
   apiRequest_message_surfaced.2.2 _ rfl rfl rfl⟩

/-- C4 counterexample: the serial number is read from the single key
`serial_number`; a document exposing it only under the alternative keys
`serialNumber` and `sn` yields the placeholder, so the serial number is not
a multi-variant field. -/
theorem serial_number_single_key_counterexample :
    (updateDeviceInfo
      ⟨some [("serialNumber", "NK-1234"), ("sn", "NK-1234")], none,
        none⟩).serialNumber = "--" ∧
    ("--" : String) ≠ "NK-1234" := by
  exact ⟨rfl, by decide⟩

/-- C4 (amended): the multi-variant field normalization applies to the
firmware version, probed as `versions.sw_sm` then `versions.smartmodule` —
first truthy value wins, placeholder `"--"` when none matches; the serial
number is read only from `general.serial_number`, defaulting to `"--"`. -/
theorem normalizer_first_present_key :
    (∀ (info : InfoDoc) (v : String),
      jget (info.versions.getD []) "sw_sm" = some v → v ≠ "" →
      (updateDeviceInfo info).firmwareVersion = v) ∧
    (∀ (info : InfoDoc) (w : String),
      jsTruthyStr (jget (info.versions.getD []) "sw_sm") = false →
      jget (info.versions.getD []) "smartmodule" = some w → w ≠ "" →
      (updateDeviceInfo info).firmwareVersion = w) ∧
    (∀ info : InfoDoc,
      jsTruthyStr (jget (info.versions.getD []) "sw_sm") = false →
      jsTruthyStr (jget (info.versions.getD []) "smartmodule") = false →
      (updateDeviceInfo info).firmwareVersion = "--") ∧
    (∀ info : InfoDoc,
      jsTruthyStr (jget (info.general.getD []) "serial_number") = false →
      (updateDeviceInfo info).serialNumber = "--") ∧
    (∀ (info : InfoDoc) (v : String),
      jget (info.general.getD []) "serial_number" = some v → v ≠ "" →
      (updateDeviceInfo info).serialNumber = v) := by
  refine ⟨?_, ?_, ?_, ?_, ?_⟩
  · intro info v h hv
    simp only [updateDeviceInfo]
    exact jsOrStr_of_truthy h hv _
  · intro info w h1 h2 hw
    simp only [updateDeviceInfo]
    rw [jsOrStr_of_falsy h1, jsOrStr_of_truthy h2 hw]
  · intro info h1 h2
    simp only [updateDeviceInfo]
    rw [jsOrStr_of_falsy h1, jsOrStr_of_falsy h2]
  · intro info h
    simp only [updateDeviceInfo]
    rw [jsOrStr_of_falsy h]
  · intro info v h hv
    simp only [updateDeviceInfo]
    exact jsOrStr_of_truthy h hv _

theorem normalizer_first_present_key_witness :
    (updateDeviceInfo ⟨none, some [("sw_sm", "3.11.0")],
        none⟩).firmwareVersion = "3.11.0" ∧
    (updateDeviceInfo ⟨none, some [("smartmodule", "2.7.1")],
        none⟩).firmwareVersion = "2.7.1" ∧
    (updateDeviceInfo ⟨none, some [], none⟩).firmwareVersion = "--" :=
  ⟨normalizer_first_present_key.1 _ _ rfl (by decide),
   normalizer_first_present_key.2.1 _ _ rfl rfl (by decide),
   normalizer_first_present_key.2.2.1 _ rfl rfl⟩

/-- Environment with both an IP and credentials configured. -/
def callerEnv : FixedEnv := ⟨"192.168.1.50", "admin", "secret"⟩

/-- A proxied request whose caller supplies its own Authorization header
(`Basic` of `foo:bar`). -/
def callerReq : ServerRequest :=
  ⟨"GET", "/api/control", "", some "Basic Zm9vOmJhcg=="⟩

/-- A path-addressed request carrying a caller Authorization header. -/
def pathReq : ServerRequest :=
  ⟨"GET", "/api/192.168.1.77/values", "?energy=1", some "Basic dXNlcjpwdw=="⟩

/-- C5 counterexample: with environment credentials configured and the
caller supplying its own Authorization header, the fixed-address server
forwards the env-derived header (`Basic` of `admin:secret`), not the
caller's — caller-supplied credentials do not take precedence. -/
theorem caller_auth_ignored_counterexample :
    FixedServer.handleRequest callerEnv callerReq =
      ServerAction.forward "192.168.1.50" "/control"
        (some "Basic YWRtaW46c2VjcmV0") ∧
    callerReq.authorization = some "Basic Zm9vOmJhcg==" ∧
    some ("Basic YWRtaW46c2VjcmV0" : String) ≠ callerReq.authorization := by
  refine ⟨by decide, rfl, by decide⟩

/-- C5 (amended): the fixed-address proxy never reads the caller's
Authorization header — its outbound header is exactly the env-derived one,
present iff both credentials are configured — while the path-addressed
proxy forwards the caller's Authorization header unchanged (it holds no
server credentials). -/
theorem proxy_auth_header_policy :
    (∀ (env : FixedEnv) (req : ServerRequest) (a b : Option String),
      FixedServer.handleRequest env { req with authorization := a } =
        FixedServer.handleRequest env { req with authorization := b }) ∧
    (∀ (env : FixedEnv) (req : ServerRequest) (h p : String)
      (auth : Option String),
      FixedServer.handleRequest env req = ServerAction.forward h p auth →
      auth = FixedServer.envAuthHeader env ∧
      (auth ≠ none ↔
        (env.NRGKICK_USER ≠ "" ∧ env.NRGKICK_PASS ≠ ""))) ∧
    (∀ (req : ServerRequest) (h p : String) (auth : Option String),
      PathServer.handleRequest req = ServerAction.forward h p auth →
      auth = req.authorization) := by
  refine ⟨?_, ?_, ?_⟩
  · intro env req a b
    rfl
  · intro env req h p auth heq
    have hauth : auth = FixedServer.envAuthHeader env := by
      simp only [FixedServer.handleRequest] at heq
      repeat' split at heq
      all_goals simp_all
    refine ⟨hauth, ?_⟩
    subst hauth
    by_cases hc : env.NRGKICK_USER ≠ "" ∧ env.NRGKICK_PASS ≠ "" <;>
      simp [FixedServer.envAuthHeader, hc]
  · intro req h p auth heq
    simp only [PathServer.handleRequest] at heq
    repeat' split at heq
    all_goals simp_all

theorem proxy_auth_header_policy_witness :
    FixedServer.handleRequest callerEnv
        { callerReq with authorization := none } =
      FixedServer.handleRequest callerEnv callerReq ∧
    (some "Basic YWRtaW46c2VjcmV0" : Option String) =
      FixedServer.envAuthHeader callerEnv ∧
    (some "Basic dXNlcjpwdw==" : Option String) = pathReq.authorization :=
  ⟨proxy_auth_header_policy.1 callerEnv callerReq none
      (some "Basic Zm9vOmJhcg=="),
   (proxy_auth_header_policy.2.1 callerEnv callerReq "192.168.1.50"
      "/control" (some "Basic YWRtaW46c2VjcmV0") (by decide)).1,
   proxy_auth_header_policy.2.2 pathReq "192.168.1.77" "/values?energy=1"
      (some "Basic dXNlcjpwdw==") (by decide)⟩
